import Mathlib

/-!
Verification of the life_manager modeling core (bio_engine.py, water_engine.py).

The Python source is shallowly embedded over `ℚ`.  The transcendental
functions `math.exp` and `math.log` are abstracted as function parameters
`E L : ℚ → ℚ`; theorems that need analytic facts about them take the
corresponding order properties as hypotheses, and witnesses instantiate
them with concrete rational stand-ins.  Python `int()` (truncation toward
zero) and `round(x, n)` (banker's rounding) are modelled exactly.
-/

namespace LifeManager

/-- Python `int(q)`: truncation toward zero. -/
def pyInt (q : ℚ) : ℤ :=
  if 0 ≤ q then ⌊q⌋ else -⌊-q⌋

/-- Python `round(q)`: round half to even (banker's rounding). -/
def pyRound (q : ℚ) : ℤ :=
  let f := ⌊q⌋
  let r := q - f
  if r < 1/2 then f
  else if 1/2 < r then f + 1
  else if Even f then f else f + 1

/-- Python `round(q, 1)`. -/
def round1 (q : ℚ) : ℚ := (pyRound (10 * q) : ℚ) / 10

/-- Python `round(q, 3)`. -/
def round3 (q : ℚ) : ℚ := (pyRound (1000 * q) : ℚ) / 1000

/-- Python `round(q, 0)`. -/
def round0 (q : ℚ) : ℚ := (pyRound q : ℚ)

-- ── Configuration constants (app/config.py defaults) ─────────────────

def REFERENCE_WEIGHT_KG : ℚ := 70
def USER_WEIGHT_KG : ℚ := 96
def USER_IS_FASTING : Bool := true

def ELVANSE_DEFAULT_DOSE_MG : ℚ := 40
def ELVANSE_KA_ABS : ℚ := 2
def ELVANSE_KA : ℚ := 0.78
def ELVANSE_KE : ℚ := 0.088

def MEDIKINET_DEFAULT_DOSE_MG : ℚ := 10
def MEDIKINET_IR_KA : ℚ := 1.72
def MEDIKINET_IR_KE : ℚ := 0.28

def MEDIKINET_RETARD_DEFAULT_DOSE_MG : ℚ := 30
def MEDIKINET_RETARD_KA : ℚ := 1.2
def MEDIKINET_RETARD_KE : ℚ := 0.28

def MATE_CAFFEINE_MG : ℚ := 76
def CAFFEINE_KA : ℚ := 2.5
def CAFFEINE_KE : ℚ := 0.16

def CO_DAFALGAN_DEFAULT_DOSE_MG : ℚ := 500
def CODEIN_FRACTION : ℚ := 30 / 500
def CO_DAFALGAN_CODEIN_KA : ℚ := 1.7
def CO_DAFALGAN_CODEIN_KE : ℚ := 0.23
def CO_DAFALGAN_PARACETAMOL_KA : ℚ := 3
def CO_DAFALGAN_PARACETAMOL_KE : ℚ := 0.28
def PARACETAMOL_MAX_DAILY_FASTING_MG : ℚ := 2000

def CMAX_REF_elvanse : ℚ := 36
def CMAX_REF_medikinet_ir : ℚ := 6
def CMAX_REF_medikinet_retard : ℚ := 12
def CMAX_REF_caffeine : ℚ := 1500
def CMAX_REF_codein : ℚ := 100
def CMAX_REF_paracetamol : ℚ := 10000

-- ── Allometric scaling ───────────────────────────────────────────────

/-- `allometric_cmax`: scale reference Cmax for user weight;
degenerate weight returns the reference unchanged. -/
def allometric_cmax (cmax_ref weight_user : ℚ) : ℚ :=
  if weight_user ≤ 0 then cmax_ref
  else cmax_ref * (REFERENCE_WEIGHT_KG / weight_user)

-- ── Bateman function core ────────────────────────────────────────────

/-- `_bateman_raw`: un-normalized Bateman curve, `E` standing for `math.exp`. -/
def bateman_raw (E : ℚ → ℚ) (t ka ke : ℚ) : ℚ :=
  if t ≤ 0 ∨ ka = ke then 0
  else (ka / (ka - ke)) * (E (-ke * t) - E (-ka * t))

/-- `_bateman_tmax`: time of peak, `L` standing for `math.log`. -/
def bateman_tmax (L : ℚ → ℚ) (ka ke : ℚ) : ℚ :=
  if ka ≤ ke ∨ ka ≤ 0 ∨ ke ≤ 0 then 1
  else L (ka / ke) / (ka - ke)

/-- `_bateman_normalized`: Bateman curve normalized so the peak is 1.0. -/
def bateman_normalized (E L : ℚ → ℚ) (t ka ke : ℚ) : ℚ :=
  if t ≤ 0 then 0
  else
    let c_max := bateman_raw E (bateman_tmax L ka ke) ka ke
    if c_max ≤ 0 then 0
    else max 0 (bateman_raw E t ka ke / c_max)

-- ── Three-stage cascade model (Elvanse) ──────────────────────────────

/-- `_cascade_raw`: three-compartment cascade analytical solution. -/
def cascade_raw (E : ℚ → ℚ) (t k_abs k_hyd k_e : ℚ) : ℚ :=
  if t ≤ 0 then 0
  else
    let d1 := (k_hyd - k_abs) * (k_e - k_abs)
    let d2 := (k_abs - k_hyd) * (k_e - k_hyd)
    let d3 := (k_abs - k_e) * (k_hyd - k_e)
    let t1 := if |d1| < 1e-12 then 0 else E (-k_abs * t) / d1
    let t2 := if |d2| < 1e-12 then 0 else E (-k_hyd * t) / d2
    let t3 := if |d3| < 1e-12 then 0 else E (-k_e * t) / d3
    k_abs * k_hyd * (t1 + t2 + t3)

/-- `_cascade_peak`: peak of the cascade curve, found by a dense sweep
over 0.01h … 30h (the memoization cache is pure and is elided). -/
def cascade_peak (E : ℚ → ℚ) (k_abs k_hyd k_e : ℚ) : ℚ :=
  (List.range 3000).foldl
    (fun peak i =>
      let val := cascade_raw E ((i + 1 : ℚ) / 100) k_abs k_hyd k_e
      if val > peak then val else peak)
    0

/-- `_cascade_normalized`: cascade curve normalized so the peak is 1.0. -/
def cascade_normalized (E : ℚ → ℚ) (t k_abs k_hyd k_e : ℚ) : ℚ :=
  if t ≤ 0 then 0
  else
    let peak := cascade_peak E k_abs k_hyd k_e
    if peak ≤ 0 then 0
    else max 0 (cascade_raw E t k_abs k_hyd k_e / peak)

-- ── Concentration calculators (absolute ng/ml) ───────────────────────

def elvanse_concentration (E : ℚ → ℚ) (hours dose_mg weight_kg : ℚ) : ℚ :=
  allometric_cmax CMAX_REF_elvanse weight_kg * (dose_mg / ELVANSE_DEFAULT_DOSE_MG)
    * cascade_normalized E hours ELVANSE_KA_ABS ELVANSE_KA ELVANSE_KE

def medikinet_ir_concentration (E L : ℚ → ℚ) (hours dose_mg weight_kg : ℚ) : ℚ :=
  allometric_cmax CMAX_REF_medikinet_ir weight_kg * (dose_mg / MEDIKINET_DEFAULT_DOSE_MG)
    * bateman_normalized E L hours MEDIKINET_IR_KA MEDIKINET_IR_KE

def medikinet_retard_concentration (E L : ℚ → ℚ) (hours dose_mg weight_kg : ℚ) : ℚ :=
  allometric_cmax CMAX_REF_medikinet_retard weight_kg * (dose_mg / MEDIKINET_RETARD_DEFAULT_DOSE_MG)
    * bateman_normalized E L hours MEDIKINET_RETARD_KA MEDIKINET_RETARD_KE

def caffeine_concentration (E L : ℚ → ℚ) (hours dose_mg weight_kg : ℚ) : ℚ :=
  allometric_cmax CMAX_REF_caffeine weight_kg * (dose_mg / MATE_CAFFEINE_MG)
    * bateman_normalized E L hours CAFFEINE_KA CAFFEINE_KE

def codein_concentration (E L : ℚ → ℚ) (hours dose_paracetamol_mg weight_kg : ℚ) : ℚ :=
  allometric_cmax CMAX_REF_codein weight_kg * (dose_paracetamol_mg * CODEIN_FRACTION / 30)
    * bateman_normalized E L hours CO_DAFALGAN_CODEIN_KA CO_DAFALGAN_CODEIN_KE

def paracetamol_concentration (E L : ℚ → ℚ) (hours dose_mg weight_kg : ℚ) : ℚ :=
  allometric_cmax CMAX_REF_paracetamol weight_kg * (dose_mg / 500)
    * bateman_normalized E L hours CO_DAFALGAN_PARACETAMOL_KA CO_DAFALGAN_PARACETAMOL_KE

-- ── Relative level calculators (0-1 at standard-dose peak) ───────────

def elvanse_level (E : ℚ → ℚ) (hours dose_mg : ℚ) : ℚ :=
  cascade_normalized E hours ELVANSE_KA_ABS ELVANSE_KA ELVANSE_KE
    * (dose_mg / ELVANSE_DEFAULT_DOSE_MG)

def medikinet_ir_level (E L : ℚ → ℚ) (hours dose_mg : ℚ) : ℚ :=
  bateman_normalized E L hours MEDIKINET_IR_KA MEDIKINET_IR_KE
    * (dose_mg / MEDIKINET_DEFAULT_DOSE_MG)

def medikinet_retard_level (E L : ℚ → ℚ) (hours dose_mg : ℚ) : ℚ :=
  bateman_normalized E L hours MEDIKINET_RETARD_KA MEDIKINET_RETARD_KE
    * (dose_mg / MEDIKINET_RETARD_DEFAULT_DOSE_MG)

def caffeine_level (E L : ℚ → ℚ) (hours dose_mg : ℚ) : ℚ :=
  bateman_normalized E L hours CAFFEINE_KA CAFFEINE_KE * (dose_mg / MATE_CAFFEINE_MG)

def codein_level (E L : ℚ → ℚ) (hours dose_paracetamol_mg : ℚ) : ℚ :=
  bateman_normalized E L hours CO_DAFALGAN_CODEIN_KA CO_DAFALGAN_CODEIN_KE
    * (dose_paracetamol_mg * CODEIN_FRACTION / 30)

-- ── Circadian base ───────────────────────────────────────────────────

/-- `circadian_base_score`: piecewise-linear circadian baseline, 0-60 points. -/
def circadian_base_score (hour : ℚ) : ℚ :=
  if hour < 6 then 15
  else if hour < 7 then 15 + (hour - 6) * 20
  else if hour < 9 then 35 + (hour - 7) * 12.5
  else if hour < 12 then 60
  else if hour < 13 then 60 - (hour - 12) * 10
  else if hour < 14.5 then 50 - (hour - 13) * 10
  else if hour < 15 then 35 + (hour - 14.5) * 30
  else if hour < 17 then 50
  else if hour < 20 then 50 - (hour - 17) * 8
  else if hour < 22 then 26 - (hour - 20) * 5
  else max 15 (16 - (hour - 22) * 0.5)

-- ── Intake events and superposition aggregation ──────────────────────

/-- One intake event; the timestamp is in hours on a common axis
(the ISO-8601 parsing in the source is external plumbing). -/
structure Intake where
  timestamp : ℚ
  substance : String
  dose_mg : Option Rat
  deriving DecidableEq, Repr

/-- Python `intake.get("dose_mg") or default_dose`: `None` and `0` are
falsy, so both fall back to the default dose. -/
def resolveDose (d : Option ℚ) (default_dose : ℚ) : ℚ :=
  match d with
  | none => default_dose
  | some x => if x = 0 then default_dose else x

/-- `compute_substance_load_ngml`: sum absolute concentration of all
intakes of one substance via Heaviside superposition, skipping
contributions not exceeding 0.01 ng/ml. -/
def compute_substance_load_ngml (intakes : List Intake) (target_time : ℚ)
    (substance : String) (conc_fn : ℚ → ℚ → ℚ) (default_dose : ℚ) : ℚ :=
  match intakes with
  | [] => 0
  | intake :: rest =>
    let restTotal := compute_substance_load_ngml rest target_time substance conc_fn default_dose
    if intake.substance ≠ substance then restTotal
    else
      let hours_since := target_time - intake.timestamp
      if hours_since < 0 then restTotal
      else
        let conc := conc_fn hours_since (resolveDose intake.dose_mg default_dose)
        if conc > 0.01 then conc + restTotal else restTotal

/-- `compute_substance_level`: sum relative level of all intakes of one
substance via superposition, skipping contributions not exceeding 0.005. -/
def compute_substance_level (intakes : List Intake) (target_time : ℚ)
    (substance : String) (level_fn : ℚ → ℚ → ℚ) (default_dose : ℚ) : ℚ :=
  match intakes with
  | [] => 0
  | intake :: rest =>
    let restTotal := compute_substance_level rest target_time substance level_fn default_dose
    if intake.substance ≠ substance then restTotal
    else
      let hours_since := target_time - intake.timestamp
      if hours_since < 0 then restTotal
      else
        let effect := level_fn hours_since (resolveDose intake.dose_mg default_dose)
        if effect > 0.005 then effect + restTotal else restTotal

-- ── DDI warning system ───────────────────────────────────────────────

/-- One DDI warning record, matching the source's warning dicts. -/
structure Warning where
  severity : String
  type : String
  title : String
  message : String
  deriving DecidableEq, Repr

/-- The rule-1 (CYP2D6 metabolic blockade) critical warning value. -/
def cyp2d6Warning : Warning :=
  { severity := "critical"
    type := "cyp2d6_blockade"
    title := "CYP2D6-Blockade: Analgetisches Versagen"
    message := "D-Amphetamin blockiert CYP2D6 kompetitiv. Codein wird NICHT zu Morphin konvertiert -- kaum Schmerzlinderung. NICHT die Co-Dafalgan-Dosis erhoehen! Risiko: Paracetamol-Ueberdosis bei Glutathion-Depletion (Fasten)." }

/-- The rule-2 (serotonin syndrome) critical warning value. -/
def serotoninWarning : Warning :=
  { severity := "critical"
    type := "serotonin_syndrome"
    title := "Serotonin-Syndrom-Risiko"
    message := "Opioid (Codein) + Stimulanzien-Stack: serotonerge Exzitotoxizitaet moeglich. Symptome: Klonus, Hyperreflexie, Diaphorese, Tremor, Agitation. Bei Symptomen sofort aerztliche Hilfe!" }

/-- Cumulative paracetamol dose of `co_dafalgan` intakes in the trailing
24-hour window ending at the target time. -/
def paraTotal24h (intakes : List Intake) (target_time : ℚ) : ℚ :=
  intakes.foldl
    (fun acc intake =>
      if intake.substance ≠ "co_dafalgan" then acc
      else if target_time - 24 ≤ intake.timestamp ∧ intake.timestamp ≤ target_time then
        acc + resolveDose intake.dose_mg CO_DAFALGAN_DEFAULT_DOSE_MG
      else acc)
    0

/-- `check_ddi_warnings`: evaluate the four drug-drug-interaction rules
at the given time and return the fired warnings in evaluation order. -/
def check_ddi_warnings (E L : ℚ → ℚ) (intakes : List Intake) (target_time : ℚ) :
    List Warning :=
  let elv_conc := compute_substance_load_ngml intakes target_time "elvanse"
    (fun h d => elvanse_concentration E h d USER_WEIGHT_KG) ELVANSE_DEFAULT_DOSE_MG
  let med_ir_conc := compute_substance_load_ngml intakes target_time "medikinet"
    (fun h d => medikinet_ir_concentration E L h d USER_WEIGHT_KG) MEDIKINET_DEFAULT_DOSE_MG
  let med_ret_conc := compute_substance_load_ngml intakes target_time "medikinet_retard"
    (fun h d => medikinet_retard_concentration E L h d USER_WEIGHT_KG) MEDIKINET_RETARD_DEFAULT_DOSE_MG
  let caff_conc := compute_substance_load_ngml intakes target_time "mate"
    (fun h d => caffeine_concentration E L h d USER_WEIGHT_KG) MATE_CAFFEINE_MG
  let cod_conc := compute_substance_load_ngml intakes target_time "co_dafalgan"
    (fun h d => codein_concentration E L h d USER_WEIGHT_KG) CO_DAFALGAN_DEFAULT_DOSE_MG
  let d_amph_thresh := allometric_cmax CMAX_REF_elvanse USER_WEIGHT_KG * 0.2
  let mph_thresh := allometric_cmax CMAX_REF_medikinet_ir USER_WEIGHT_KG * 0.2
  let w1 : List Warning :=
    if cod_conc > 1 ∧ (elv_conc > d_amph_thresh ∨ med_ir_conc > mph_thresh ∨ med_ret_conc > mph_thresh)
    then [cyp2d6Warning] else []
  let total_stim_norm :=
    elv_conc / max (d_amph_thresh * 5) 1
      + (med_ir_conc + med_ret_conc) / max (mph_thresh * 5) 1
      + caff_conc / 1500
  let w2 : List Warning :=
    if cod_conc > 1 ∧ total_stim_norm > 0.3 then [serotoninWarning] else []
  let para_total := paraTotal24h intakes target_time
  let w3 : List Warning :=
    if USER_IS_FASTING then
      if para_total > PARACETAMOL_MAX_DAILY_FASTING_MG then
        [{ severity := "critical"
           type := "paracetamol_toxicity"
           title := "Paracetamol-Hepatotoxizitaet (Fasten!)"
           message := "Kumul. Paracetamol: " ++ toString (pyRound para_total) ++ "mg/24h. Max. bei Fasten: " ++ toString (pyRound PARACETAMOL_MAX_DAILY_FASTING_MG) ++ "mg. Glutathion depletiert -- NAPQI-Neutralisierung stark eingeschraenkt." }]
      else if para_total > 1000 then
        [{ severity := "warning"
           type := "paracetamol_caution"
           title := "Paracetamol-Vorsicht (Fasten)"
           message := "Kumul. Paracetamol: " ++ toString (pyRound para_total) ++ "mg/24h. Glutathion im Fastenzustand reduziert. Weitere Einnahme abwaegen." }]
      else []
    else []
  let cns_total := elv_conc + med_ir_conc + med_ret_conc
  let cmax_stim_sum :=
    allometric_cmax CMAX_REF_elvanse USER_WEIGHT_KG
      + allometric_cmax CMAX_REF_medikinet_ir USER_WEIGHT_KG
  let w4 : List Warning :=
    if cns_total > cmax_stim_sum * 0.8 ∧ caff_conc > 800 then
      [{ severity := "warning"
         type := "cns_overload"
         title := "Extreme ZNS-Last"
         message := "Stimulanzien: " ++ toString (round1 cns_total) ++ " ng/ml + Koffein: " ++ toString (pyRound caff_conc) ++ " ng/ml. Kardiovaskulaere Belastung sehr hoch. HRV und Ruhepuls beobachten." }]
    else []
  w1 ++ w2 ++ w3 ++ w4

-- ── HRV penalty and sleep modifier ───────────────────────────────────

/-- `hrv_penalty`: HRV-based penalty, 0 to -15. -/
def hrv_penalty (hrv_ms resting_hr : Option ℚ) (stim_level : ℚ) : ℚ :=
  match hrv_ms with
  | none => 0
  | some h =>
    let p1 : ℚ :=
      if h < 20 ∧ stim_level > 0.5 then -15
      else if h < 30 ∧ stim_level > 0.5 then -10
      else if h < 40 ∧ stim_level > 0.3 then -5
      else if h < 50 ∧ stim_level > 0.5 then -3
      else 0
    let p2 : ℚ :=
      match resting_hr with
      | none => p1
      | some r =>
        if r > 100 then p1 - 8
        else if r > 90 ∧ stim_level > 0.3 then p1 - 5
        else p1
    max (-15) p2

/-- `sleep_quality_modifier`: modifier based on last night's sleep, -20 to +10. -/
def sleep_quality_modifier (sleep_duration_min sleep_confidence : Option ℚ) : ℚ :=
  match sleep_duration_min with
  | none => 0
  | some m =>
    let hours := m / 60
    let base : ℚ :=
      if hours < 5 then -20
      else if hours < 6 then -10
      else if hours < 7 then -5
      else if hours < 8 then 0
      else if hours < 9 then 5
      else 10
    match sleep_confidence with
    | none => base
    | some c => if c > 0 then base * (c / 100) else base

-- ── Bio-Score composite ──────────────────────────────────────────────

/-- A `datetime` value as the engine reads it: wall-clock hour and
minute, plus a position in hours on the common time axis. -/
structure PyDateTime where
  hour : ℕ
  minute : ℕ
  epochHours : ℚ
  deriving DecidableEq, Repr

/-- Hour-of-day as the float `t.hour + t.minute / 60.0`. -/
def hourFloat (t : PyDateTime) : ℚ := (t.hour : ℚ) + (t.minute : ℚ) / 60

/-- `_determine_phase`: categorical bio phase. -/
def determine_phase (stim_level caffeine_lv hour : ℚ) : String :=
  if hour < 6 then "sleep"
  else if hour < 7 then "waking"
  else if stim_level ≥ 0.85 then "peak-focus"
  else if stim_level ≥ 0.5 then "active-focus"
  else if stim_level ≥ 0.2 then "declining"
  else if stim_level ≥ 0.05 then "low-residual"
  else if 12.5 ≤ hour ∧ hour ≤ 14.5 then "midday-dip"
  else if hour ≥ 20 then "wind-down"
  else "baseline"

/-- Result record of `compute_bio_score`. -/
structure BioScoreResult where
  score : ℚ
  circadian : ℚ
  elvanse_boost : ℚ
  medikinet_boost : ℚ
  caffeine_boost : ℚ
  sleep_modifier : ℚ
  hrv_penalty : ℚ
  elvanse_level : ℚ
  medikinet_level : ℚ
  caffeine_level : ℚ
  codein_level : ℚ
  elvanse_ng_ml : ℚ
  medikinet_ng_ml : ℚ
  caffeine_ng_ml : ℚ
  codein_ng_ml : ℚ
  cns_load : ℚ
  phase : String
  warnings : List Warning
  deriving DecidableEq, Repr

/-- `compute_bio_score`: composite Bio-Score with PK superposition,
sleep and HRV modifiers, DDI warnings and phase classification. -/
def compute_bio_score (E L : ℚ → ℚ) (target_time : PyDateTime) (intakes : List Intake)
    (sleep_duration_min sleep_confidence hrv_ms resting_hr : Option ℚ) : BioScoreResult :=
  let hour := hourFloat target_time
  let T := target_time.epochHours
  let circadian := circadian_base_score hour
  let elv_lv := compute_substance_level intakes T "elvanse"
    (elvanse_level E) ELVANSE_DEFAULT_DOSE_MG
  let elvanse_boost := min 30 (elv_lv * 30)
  let med_ir_lv := compute_substance_level intakes T "medikinet"
    (medikinet_ir_level E L) MEDIKINET_DEFAULT_DOSE_MG
  let med_ret_lv := compute_substance_level intakes T "medikinet_retard"
    (medikinet_retard_level E L) MEDIKINET_RETARD_DEFAULT_DOSE_MG
  let med_combined := med_ir_lv + med_ret_lv
  let medikinet_boost := min 25 (med_combined * 25)
  let caff_lv := compute_substance_level intakes T "mate"
    (caffeine_level E L) MATE_CAFFEINE_MG
  let caffeine_boost := min 15 (caff_lv * 15)
  let sleep_mod := sleep_quality_modifier sleep_duration_min sleep_confidence
  let stim_peak := max elv_lv med_combined
  let hrv_pen := hrv_penalty hrv_ms resting_hr stim_peak
  let raw_score := circadian + elvanse_boost + medikinet_boost + caffeine_boost + sleep_mod + hrv_pen
  let score := max 0 (min 100 raw_score)
  let elv_conc := compute_substance_load_ngml intakes T "elvanse"
    (fun h d => elvanse_concentration E h d USER_WEIGHT_KG) ELVANSE_DEFAULT_DOSE_MG
  let med_ir_conc := compute_substance_load_ngml intakes T "medikinet"
    (fun h d => medikinet_ir_concentration E L h d USER_WEIGHT_KG) MEDIKINET_DEFAULT_DOSE_MG
  let med_ret_conc := compute_substance_load_ngml intakes T "medikinet_retard"
    (fun h d => medikinet_retard_concentration E L h d USER_WEIGHT_KG) MEDIKINET_RETARD_DEFAULT_DOSE_MG
  let caff_conc := compute_substance_load_ngml intakes T "mate"
    (fun h d => caffeine_concentration E L h d USER_WEIGHT_KG) MATE_CAFFEINE_MG
  let cod_conc := compute_substance_load_ngml intakes T "co_dafalgan"
    (fun h d => codein_concentration E L h d USER_WEIGHT_KG) CO_DAFALGAN_DEFAULT_DOSE_MG
  let cns_load := elv_lv + med_combined + caff_lv
  let ddi_warnings := check_ddi_warnings E L intakes T
  let phase := determine_phase stim_peak caff_lv hour
  { score := round1 score
    circadian := round1 circadian
    elvanse_boost := round1 elvanse_boost
    medikinet_boost := round1 medikinet_boost
    caffeine_boost := round1 caffeine_boost
    sleep_modifier := round1 sleep_mod
    hrv_penalty := round1 hrv_pen
    elvanse_level := round3 elv_lv
    medikinet_level := round3 med_combined
    caffeine_level := round3 caff_lv
    codein_level := round3 (cod_conc / max (allometric_cmax CMAX_REF_codein USER_WEIGHT_KG) 1)
    elvanse_ng_ml := round1 elv_conc
    medikinet_ng_ml := round1 (med_ir_conc + med_ret_conc)
    caffeine_ng_ml := round0 caff_conc
    codein_ng_ml := round1 cod_conc
    cns_load := round3 cns_load
    phase := phase
    warnings := ddi_warnings }

-- ── Water engine ─────────────────────────────────────────────────────

/-- Modelled from the spec: the per-kg hydration base constant
`WATER_BASE_ML_PER_KG` is imported by the water engine but absent from
the configuration file under src/; the spec and the engine's docstring
give 33.3 ml/kg. -/
def WATER_BASE_ML_PER_KG : ℚ := 33.3

/-- Modelled from the spec: `WATER_DRUG_MODIFIER_ML` (+110 ml when the
primary stimulant was taken), absent from the configuration under src/. -/
def WATER_DRUG_MODIFIER_ML : ℤ := 110

/-- Modelled from the spec: `WATER_FASTING_MODIFIER_ML` (+500 ml when
fasting), absent from the configuration under src/. -/
def WATER_FASTING_MODIFIER_ML : ℤ := 500

/-- Modelled from the spec: `WATER_ACTIVITY_ML_PER_1K_STEPS` (60 ml per
1000 steps above baseline), absent from the configuration under src/. -/
def WATER_ACTIVITY_ML_PER_1K_STEPS : ℚ := 60

/-- Modelled from the spec: `WATER_ACTIVITY_BASELINE_STEPS` (4000-step
sedentary baseline), absent from the configuration under src/. -/
def WATER_ACTIVITY_BASELINE_STEPS : ℤ := 4000

/-- Result record of `compute_daily_goal`. -/
structure WaterGoal where
  goal_ml : ℤ
  base_ml : ℤ
  drug_modifier_ml : ℤ
  fasting_modifier_ml : ℤ
  activity_modifier_ml : ℤ
  weight_kg : ℚ
  is_fasting : Bool
  elvanse_active : Bool
  steps : ℤ
  deriving DecidableEq, Repr

/-- `compute_daily_goal`: personalised total daily water target with
its additive breakdown. -/
def compute_daily_goal (weight_kg : ℚ) (is_fasting elvanse_active : Bool)
    (steps caffeine_doses : ℤ) : WaterGoal :=
  let base_ml : ℚ := weight_kg * WATER_BASE_ML_PER_KG
  let drug_mod : ℤ := if elvanse_active then WATER_DRUG_MODIFIER_ML else 0
  let fasting_mod : ℤ := if is_fasting then WATER_FASTING_MODIFIER_ML else 0
  let step_surplus : ℤ := max 0 (steps - WATER_ACTIVITY_BASELINE_STEPS)
  let activity_mod : ℤ := pyInt (WATER_ACTIVITY_ML_PER_1K_STEPS * ((step_surplus : ℚ) / 1000))
  let goal_ml : ℤ := pyInt (base_ml + (drug_mod : ℚ) + (fasting_mod : ℚ) + (activity_mod : ℚ))
  { goal_ml := goal_ml
    base_ml := pyInt base_ml
    drug_modifier_ml := drug_mod
    fasting_modifier_ml := fasting_mod
    activity_modifier_ml := activity_mod
    weight_kg := weight_kg
    is_fasting := is_fasting
    elvanse_active := elvanse_active
    steps := steps }

/-- `expected_intake_at_hour`: expected cumulative intake at an hour of
day (both fasting branches of the source are the same linear ramp). -/
def expected_intake_at_hour (hour : ℚ) (goal_ml : ℤ) (wake_hour sleep_hour : ℚ)
    (is_fasting : Bool) : ℚ :=
  if hour ≤ wake_hour then 0
  else if hour ≥ sleep_hour then (goal_ml : ℚ)
  else
    let progress := (hour - wake_hour) / (sleep_hour - wake_hour)
    if is_fasting then (goal_ml : ℚ) * progress else (goal_ml : ℚ) * progress

/-- Result record of `assess_hydration` (`_build_result` output). -/
structure HydrationResult where
  message : String
  recommended_amount : ℤ
  priority : String
  deadline_minutes : ℤ
  deficit_ml : ℤ
  pacing_ml_per_hour : ℤ
  status : String
  progress_pct : ℚ
  deriving DecidableEq, Repr

/-- `_build_result`: assemble the coaching record. -/
def build_result (message : String) (amount : ℤ) (priority : String) (deadline : ℤ)
    (deficit pacing : ℤ) (status : String) (pct : ℚ) : HydrationResult :=
  { message := message
    recommended_amount := amount
    priority := priority
    deadline_minutes := deadline
    deficit_ml := deficit
    pacing_ml_per_hour := pacing
    status := status
    progress_pct := round1 pct }

/-- The priority ladder of `assess_hydration`, from the suppression
check down to the final fall-through, taking the locals computed at the
top of the source function (`deficit`, `pacing`, `pct`) as arguments. -/
def hydration_ladder (current_intake_ml goal_ml : ℤ) (hour : ℚ)
    (minutes_since_last_drink : Option ℚ) (wake_hour : ℚ)
    (recent_intake_30min_ml deficit pacing : ℤ) (pct : ℚ) : HydrationResult :=
  if recent_intake_30min_ml > 500 ∧ deficit > 0 then
    build_result "" 0 "none" 0 deficit pacing "on_track" pct
  else if current_intake_ml ≥ goal_ml then
    build_result "" 0 "none" 0 deficit pacing "goal_reached" pct
  else if deficit > 1000 then
    let amount := min 500 deficit
    build_result ("Stark im Rückstand (" ++ toString deficit ++ " ml)! Trink jetzt "
      ++ toString amount ++ " ml.") amount "critical" 20 deficit pacing "critical" pct
  else if deficit > 500 then
    let amount := min 400 deficit
    build_result ("Du bist " ++ toString deficit ++ " ml im Rückstand. Trink "
      ++ toString amount ++ " ml!") amount "high" 30 deficit pacing "behind" pct
  else if deficit > 200 then
    let amount := min 300 deficit
    build_result ("Etwas im Rückstand (" ++ toString deficit ++ " ml). Trink "
      ++ toString amount ++ " ml.") amount "normal" 45 deficit pacing "behind" pct
  else
    let tail : HydrationResult :=
      if current_intake_ml = 0 ∧ hour > wake_hour + 1 then
        build_result "Noch nichts getrunken heute — starte jetzt!" 250 "high" 15
          deficit pacing "critical" pct
      else if pacing > 0 ∧ deficit > 0 then
        build_result ("Gut dabei! Nächstes Glas: " ++ toString (min 250 pacing) ++ " ml.")
          (min 250 pacing) "low" 60 deficit pacing "on_track" pct
      else
        build_result "" 0 "none" 0 deficit pacing "on_track" pct
    match minutes_since_last_drink with
    | none => tail
    | some minutes_since =>
      if minutes_since > 120 then
        build_result "Über 2 Stunden ohne Wasser — trink etwas!" 250 "high" 15
          deficit pacing "behind" pct
      else if minutes_since > 90 then
        build_result "90 Min seit dem letzten Trinken. Trink 200 ml." 200 "normal" 30
          deficit pacing "behind" pct
      else tail

/-- `assess_hydration`: hydration status assessment and coaching
instruction.  `now` enters as its hour-of-day float, and the
`last_drink_time` input as the elapsed minutes since the last drink
(`None` when never drunk); the datetime/timezone juggling of the source
is external plumbing. -/
def assess_hydration (current_intake_ml goal_ml : ℤ) (hour : ℚ)
    (minutes_since_last_drink : Option ℚ) (wake_hour sleep_hour : ℚ)
    (is_fasting : Bool) (recent_intake_30min_ml : ℤ) : HydrationResult :=
  let expected := expected_intake_at_hour hour goal_ml wake_hour sleep_hour is_fasting
  let deficit : ℤ := pyInt (expected - (current_intake_ml : ℚ))
  let pct : ℚ := if goal_ml > 0 then (current_intake_ml : ℚ) / (goal_ml : ℚ) * 100 else 0
  let remaining_hours : ℚ := max 0.5 (sleep_hour - hour)
  let remaining_ml : ℤ := max 0 (goal_ml - current_intake_ml)
  let pacing : ℤ := if remaining_hours > 0 then pyInt ((remaining_ml : ℚ) / remaining_hours) else 0
  hydration_ladder current_intake_ml goal_ml hour minutes_since_last_drink wake_hour
    recent_intake_30min_ml deficit pacing pct

-- ── Rational stand-ins for exp and log ───────────────────────────────

/-- A strictly monotone, positive, rational stand-in for `math.exp`
(equal to 1 at 0), used to instantiate `E` in concrete evaluations. -/
def E0 (x : ℚ) : ℚ := if x < 0 then 1 / (1 - x) else 1 + x

/-- A rational stand-in for `math.log`: strictly monotone, zero at 1 and
positive on `(1, ∞)`, used to instantiate `L` in concrete evaluations. -/
def L0 (x : ℚ) : ℚ := x - 1

theorem L0_pos : ∀ x : ℚ, 1 < x → 0 < L0 x := fun _ hx => sub_pos.mpr hx

-- ── Spec-side comparison definitions ─────────────────────────────────

/-- Modelled from the spec's wording of DDI rule 1 (for refinement
comparison with the source): the opioid-combo concentration exceeds
1.0 ng/ml and at least one stimulant exceeds 20% of its OWN
allometrically scaled Cmax — including the retard form, which the spec
measures against the retard reference Cmax. -/
def ddi_rule1_spec_condition (E L : ℚ → ℚ) (intakes : List Intake) (target_time : ℚ) : Prop :=
  compute_substance_load_ngml intakes target_time "co_dafalgan"
      (fun h d => codein_concentration E L h d USER_WEIGHT_KG) CO_DAFALGAN_DEFAULT_DOSE_MG > 1
  ∧ (compute_substance_load_ngml intakes target_time "elvanse"
        (fun h d => elvanse_concentration E h d USER_WEIGHT_KG) ELVANSE_DEFAULT_DOSE_MG
        > allometric_cmax CMAX_REF_elvanse USER_WEIGHT_KG * 0.2
      ∨ compute_substance_load_ngml intakes target_time "medikinet"
          (fun h d => medikinet_ir_concentration E L h d USER_WEIGHT_KG) MEDIKINET_DEFAULT_DOSE_MG
          > allometric_cmax CMAX_REF_medikinet_ir USER_WEIGHT_KG * 0.2
      ∨ compute_substance_load_ngml intakes target_time "medikinet_retard"
          (fun h d => medikinet_retard_concentration E L h d USER_WEIGHT_KG) MEDIKINET_RETARD_DEFAULT_DOSE_MG
          > allometric_cmax CMAX_REF_medikinet_retard USER_WEIGHT_KG * 0.2)

/-- Modelled from the spec (for refinement comparison): the exact
superposition sum of absolute concentrations, with NO minimum-magnitude
cutoff. -/
def substance_load_exact (intakes : List Intake) (target_time : ℚ)
    (substance : String) (conc_fn : ℚ → ℚ → ℚ) (default_dose : ℚ) : ℚ :=
  match intakes with
  | [] => 0
  | intake :: rest =>
    let restTotal := substance_load_exact rest target_time substance conc_fn default_dose
    if intake.substance ≠ substance then restTotal
    else
      let hours_since := target_time - intake.timestamp
      if hours_since < 0 then restTotal
      else conc_fn hours_since (resolveDose intake.dose_mg default_dose) + restTotal

/-- Modelled from the spec (for refinement comparison): the exact
superposition sum of relative levels, with NO minimum-magnitude cutoff. -/
def substance_level_exact (intakes : List Intake) (target_time : ℚ)
    (substance : String) (level_fn : ℚ → ℚ → ℚ) (default_dose : ℚ) : ℚ :=
  match intakes with
  | [] => 0
  | intake :: rest =>
    let restTotal := substance_level_exact rest target_time substance level_fn default_dose
    if intake.substance ≠ substance then restTotal
    else
      let hours_since := target_time - intake.timestamp
      if hours_since < 0 then restTotal
      else level_fn hours_since (resolveDose intake.dose_mg default_dose) + restTotal

-- ── Concrete inputs used by counterexamples ──────────────────────────

/-- A retard dose landing between the IR-based threshold (0.875 ng/ml)
and the retard's own threshold (1.75 ng/ml), plus a codeine dose. -/
def ddiIntakes : List Intake :=
  [⟨0, "medikinet_retard", some 4⟩, ⟨0, "co_dafalgan", some 500⟩]

/-- Two intakes whose contributions each sit exactly at the cutoff. -/
def cutoffIntakes : List Intake := [⟨0, "s", none⟩, ⟨0, "s", none⟩]

-- ── Helper lemmas ────────────────────────────────────────────────────

theorem pyInt_eq_floor {q : ℚ} (h : 0 ≤ q) : pyInt q = ⌊q⌋ := if_pos h

theorem pyInt_nonneg {q : ℚ} (h : 0 ≤ q) : 0 ≤ pyInt q := by
  rw [pyInt_eq_floor h]; exact Int.floor_nonneg.mpr h

theorem pyInt_add_int {q : ℚ} (h : 0 ≤ q) {k : ℤ} (hk : 0 ≤ k) :
    pyInt (q + (k : ℚ)) = pyInt q + k := by
  rw [pyInt_eq_floor h, pyInt_eq_floor (by positivity), Int.floor_add_int]

theorem le_pyRound {n : ℤ} {x : ℚ} (h : (n : ℚ) ≤ x) : n ≤ pyRound x := by
  have hf : n ≤ ⌊x⌋ := Int.le_floor.mpr h
  simp only [pyRound]
  split_ifs <;> omega

theorem pyRound_le {n : ℤ} {x : ℚ} (h : x ≤ (n : ℚ)) : pyRound x ≤ n := by
  have hf : ⌊x⌋ ≤ n := by
    have := Int.floor_le_floor (α := ℚ) h
    simpa using this
  have hfl : (⌊x⌋ : ℚ) ≤ x := Int.floor_le x
  simp only [pyRound]
  split_ifs with h1 h2 h3
  · exact hf
  · have hr : (1 : ℚ) / 2 ≤ x - ⌊x⌋ := not_lt.mp h1
    have hcast : (⌊x⌋ : ℚ) < (n : ℚ) := by linarith
    have : ⌊x⌋ < n := by exact_mod_cast hcast
    omega
  · exact hf
  · have hr : (1 : ℚ) / 2 ≤ x - ⌊x⌋ := not_lt.mp h1
    have hcast : (⌊x⌋ : ℚ) < (n : ℚ) := by linarith
    have : ⌊x⌋ < n := by exact_mod_cast hcast
    omega

theorem round1_clamp_bounds (x : ℚ) :
    0 ≤ round1 (max 0 (min 100 x)) ∧ round1 (max 0 (min 100 x)) ≤ 100 := by
  set y := max 0 (min 100 x) with hy
  have hy0 : (0 : ℚ) ≤ y := le_max_left _ _
  have hy1 : y ≤ 100 := max_le (by norm_num) (min_le_left _ _)
  unfold round1
  constructor
  · have h := le_pyRound (n := 0) (x := 10 * y) (by push_cast; linarith)
    have : (0 : ℚ) ≤ (pyRound (10 * y) : ℚ) := by exact_mod_cast h
    linarith
  · have h := pyRound_le (n := 1000) (x := 10 * y) (by push_cast; linarith)
    have : ((pyRound (10 * y) : ℚ)) ≤ 1000 := by exact_mod_cast h
    linarith

set_option maxHeartbeats 1000000 in
theorem circadian_base_score_bounds (h : ℚ) :
    15 ≤ circadian_base_score h ∧ circadian_base_score h ≤ 60 := by
  unfold circadian_base_score
  split_ifs with h1 h2 h3 h4 h5 h6 h7 h8 h9 h10
  · exact ⟨by norm_num, by norm_num⟩
  · exact ⟨by nlinarith, by nlinarith⟩
  · exact ⟨by nlinarith, by nlinarith⟩
  · exact ⟨by norm_num, by norm_num⟩
  · exact ⟨by nlinarith, by nlinarith⟩
  · exact ⟨by nlinarith, by nlinarith⟩
  · exact ⟨by nlinarith, by nlinarith⟩
  · exact ⟨by norm_num, by norm_num⟩
  · exact ⟨by nlinarith, by nlinarith⟩
  · exact ⟨by nlinarith, by nlinarith⟩
  · have h22 : (22 : ℚ) ≤ h := not_lt.mp h10
    exact ⟨le_max_left _ _, max_le (by norm_num) (by nlinarith)⟩

theorem bateman_normalized_of_nonpos {t : ℚ} (ht : t ≤ 0) (E L : ℚ → ℚ) (ka ke : ℚ) :
    bateman_normalized E L t ka ke = 0 := by
  simp [bateman_normalized, ht]

theorem cascade_normalized_of_nonpos {t : ℚ} (ht : t ≤ 0) (E : ℚ → ℚ) (k1 k2 k3 : ℚ) :
    cascade_normalized E t k1 k2 k3 = 0 := by
  simp [cascade_normalized, ht]

theorem bateman_normalized_nonneg (E L : ℚ → ℚ) (t ka ke : ℚ) :
    0 ≤ bateman_normalized E L t ka ke := by
  simp only [bateman_normalized]
  split_ifs <;> simp [le_max_left]

theorem bateman_raw_pos {E : ℚ → ℚ} (hE : StrictMono E) {t ka ke : ℚ}
    (ht : 0 < t) (hka : 0 < ka) (hne : ka ≠ ke) : 0 < bateman_raw E t ka ke := by
  unfold bateman_raw
  rw [if_neg (by push_neg; exact ⟨by linarith, hne⟩)]
  rcases lt_or_gt_of_ne hne with hlt | hgt
  · have h1 : ka - ke < 0 := by linarith
    have h2 : ka / (ka - ke) < 0 := div_neg_of_pos_of_neg hka h1
    have h3 : E (-ke * t) < E (-ka * t) := hE (by nlinarith)
    exact mul_pos_of_neg_of_neg h2 (by linarith)
  · have h1 : (0 : ℚ) < ka - ke := by linarith
    have h2 : 0 < ka / (ka - ke) := div_pos hka h1
    have h3 : E (-ka * t) < E (-ke * t) := hE (by nlinarith)
    exact mul_pos h2 (by linarith)

theorem bateman_tmax_pos {L : ℚ → ℚ} (hL : ∀ x, 1 < x → 0 < L x) {ka ke : ℚ}
    (hka : 0 < ka) : 0 < bateman_tmax L ka ke := by
  unfold bateman_tmax
  split_ifs with h
  · norm_num
  · push_neg at h
    obtain ⟨h1, _, h3⟩ := h
    have hx : 1 < ka / ke := (one_lt_div h3).mpr h1
    exact div_pos (hL _ hx) (by linarith)

-- ── Claim theorems ───────────────────────────────────────────────────

/-- C1: causality.  Every relative-level and absolute-concentration
function returns exactly 0 at elapsed time `t ≤ 0`, and the
superposition aggregators ignore an intake event whose timestamp is
later than the target time. -/
theorem claim_C1_causality (E L : ℚ → ℚ) (t d w ka ke k1 k2 k3 : ℚ)
    (fn : ℚ → ℚ → ℚ) (dflt : ℚ) (s : String) (intakes : List Intake)
    (target : ℚ) (i : Intake) (ht : t ≤ 0) (hfut : target < i.timestamp) :
    bateman_normalized E L t ka ke = 0 ∧
    cascade_normalized E t k1 k2 k3 = 0 ∧
    elvanse_level E t d = 0 ∧
    medikinet_ir_level E L t d = 0 ∧
    medikinet_retard_level E L t d = 0 ∧
    caffeine_level E L t d = 0 ∧
    codein_level E L t d = 0 ∧
    elvanse_concentration E t d w = 0 ∧
    medikinet_ir_concentration E L t d w = 0 ∧
    medikinet_retard_concentration E L t d w = 0 ∧
    caffeine_concentration E L t d w = 0 ∧
    codein_concentration E L t d w = 0 ∧
    paracetamol_concentration E L t d w = 0 ∧
    compute_substance_load_ngml (i :: intakes) target s fn dflt
      = compute_substance_load_ngml intakes target s fn dflt ∧
    compute_substance_level (i :: intakes) target s fn dflt
      = compute_substance_level intakes target s fn dflt := by
  have hneg : target - i.timestamp < 0 := by linarith
  refine ⟨bateman_normalized_of_nonpos ht E L ka ke,
    cascade_normalized_of_nonpos ht E k1 k2 k3,
    ?_, ?_, ?_, ?_, ?_, ?_, ?_, ?_, ?_, ?_, ?_, ?_, ?_⟩
  · simp [elvanse_level, cascade_normalized_of_nonpos ht]
  · simp [medikinet_ir_level, bateman_normalized_of_nonpos ht]
  · simp [medikinet_retard_level, bateman_normalized_of_nonpos ht]
  · simp [caffeine_level, bateman_normalized_of_nonpos ht]
  · simp [codein_level, bateman_normalized_of_nonpos ht]
  · simp [elvanse_concentration, cascade_normalized_of_nonpos ht]
  · simp [medikinet_ir_concentration, bateman_normalized_of_nonpos ht]
  · simp [medikinet_retard_concentration, bateman_normalized_of_nonpos ht]
  · simp [caffeine_concentration, bateman_normalized_of_nonpos ht]
  · simp [codein_concentration, bateman_normalized_of_nonpos ht]
  · simp [paracetamol_concentration, bateman_normalized_of_nonpos ht]
  · simp only [compute_substance_load_ngml]
    split_ifs <;> first | rfl | exact absurd hneg (by assumption)
  · simp only [compute_substance_level]
    split_ifs <;> first | rfl | exact absurd hneg (by assumption)

/-- C1 witness: the causality statement instantiated at concrete inputs
(time -1h, an intake stamped one hour after the target). -/
theorem claim_C1_causality_witness :
    bateman_normalized E0 L0 (-1) 1.72 0.28 = 0 ∧
    cascade_normalized E0 (-1) 2 0.78 0.088 = 0 ∧
    elvanse_level E0 (-1) 40 = 0 ∧
    medikinet_ir_level E0 L0 (-1) 40 = 0 ∧
    medikinet_retard_level E0 L0 (-1) 40 = 0 ∧
    caffeine_level E0 L0 (-1) 40 = 0 ∧
    codein_level E0 L0 (-1) 40 = 0 ∧
    elvanse_concentration E0 (-1) 40 96 = 0 ∧
    medikinet_ir_concentration E0 L0 (-1) 40 96 = 0 ∧
    medikinet_retard_concentration E0 L0 (-1) 40 96 = 0 ∧
    caffeine_concentration E0 L0 (-1) 40 96 = 0 ∧
    codein_concentration E0 L0 (-1) 40 96 = 0 ∧
    paracetamol_concentration E0 L0 (-1) 40 96 = 0 ∧
    compute_substance_load_ngml [Intake.mk 2 "mate" none] 1 "mate" (fun _ _ => 1) 76
      = compute_substance_load_ngml [] 1 "mate" (fun _ _ => 1) 76 ∧
    compute_substance_level [Intake.mk 2 "mate" none] 1 "mate" (fun _ _ => 1) 76
      = compute_substance_level [] 1 "mate" (fun _ _ => 1) 76 :=
  claim_C1_causality E0 L0 (-1) 40 96 1.72 0.28 2 0.78 0.088 (fun _ _ => 1) 76 "mate"
    [] 1 (Intake.mk 2 "mate" none) (by norm_num) (by norm_num)

/-- C2: for every target time, intake list, and combination of optional
sleep, sleep-confidence, HRV and resting-heart-rate inputs, the `score`
field of `compute_bio_score` lies in the interval [0, 100]. -/
theorem claim_C2_score_bounds (E L : ℚ → ℚ) (t : PyDateTime) (intakes : List Intake)
    (sleep_duration_min sleep_confidence hrv_ms resting_hr : Option ℚ) :
    0 ≤ (compute_bio_score E L t intakes sleep_duration_min sleep_confidence
          hrv_ms resting_hr).score
    ∧ (compute_bio_score E L t intakes sleep_duration_min sleep_confidence
          hrv_ms resting_hr).score ≤ 100 :=
  round1_clamp_bounds _

theorem bio_score_empty_eq (E L : ℚ → ℚ) (t : PyDateTime) :
    (compute_bio_score E L t [] none none none none).score
      = round1 (circadian_base_score (hourFloat t)) := by
  have hb := circadian_base_score_bounds (hourFloat t)
  have hmin : min (100 : ℚ) (circadian_base_score (hourFloat t))
      = circadian_base_score (hourFloat t) := min_eq_right (by linarith [hb.2])
  have hmax : max (0 : ℚ) (circadian_base_score (hourFloat t))
      = circadian_base_score (hourFloat t) := max_eq_right (by linarith [hb.1])
  show round1 (max 0 (min 100 (circadian_base_score (hourFloat t)
      + min 30 (compute_substance_level [] t.epochHours "elvanse" (elvanse_level E)
          ELVANSE_DEFAULT_DOSE_MG * 30)
      + _ + _ + _ + _))) = _
  simp only [compute_substance_level, sleep_quality_modifier, hrv_penalty]
  norm_num [hmin, hmax]

/-- C8 counterexample: with zero intakes and no health data at 07:01,
the returned score is the circadian baseline rounded to one decimal
(35.2), not the exact baseline value 845/24 = 35.208333…, so the
claimed exact equality fails. -/
theorem claim_C8_counterexample :
    (compute_bio_score E0 L0 (PyDateTime.mk 7 1 0) [] none none none none).score
      ≠ circadian_base_score (hourFloat (PyDateTime.mk 7 1 0)) := by
  rw [bio_score_empty_eq]
  norm_num [round1, pyRound, circadian_base_score, hourFloat]

/-- C8 (amended): with zero intakes and no health data, the score equals
the circadian baseline at the hour-of-day rounded to one decimal (the
boosts and modifiers contribute 0 and the clamp does not bind); the
stated exact equality therefore holds whenever the baseline value is a
multiple of 0.1, e.g. on the whole hour. -/
theorem claim_C8_amended (E L : ℚ → ℚ) (t : PyDateTime) :
    (compute_bio_score E L t [] none none none none).score
      = round1 (circadian_base_score (hourFloat t)) :=
  bio_score_empty_eq E L t

/-- C7 counterexample: at `ka = ke` the raw Bateman curve is identically
zero, so the normalized curve evaluated at the computed peak time is 0,
not 1 — the claim quantified over ALL rate constants fails. -/
theorem claim_C7_counterexample :
    bateman_normalized E0 L0 (bateman_tmax L0 1 1) 1 1 ≠ 1 := by
  norm_num [bateman_normalized, bateman_tmax, bateman_raw]

/-- C7 (amended): for a strictly monotone `exp`, a `log` positive on
`(1, ∞)`, and rate constants with `ka > 0` and `ka ≠ ke`, the
normalized Bateman curve equals exactly 1.0 at the computed peak time;
nonnegativity of the normalized curve holds for ALL rate constants. -/
theorem claim_C7_amended (E L : ℚ → ℚ) (ka ke t : ℚ) (hE : StrictMono E)
    (hL : ∀ x, 1 < x → 0 < L x) (hka : 0 < ka) (hne : ka ≠ ke) :
    bateman_normalized E L (bateman_tmax L ka ke) ka ke = 1
    ∧ 0 ≤ bateman_normalized E L t ka ke := by
  refine ⟨?_, bateman_normalized_nonneg E L t ka ke⟩
  have htm : 0 < bateman_tmax L ka ke := bateman_tmax_pos hL hka
  have hpos : 0 < bateman_raw E (bateman_tmax L ka ke) ka ke :=
    bateman_raw_pos hE htm hka hne
  simp only [bateman_normalized]
  rw [if_neg (not_le.mpr htm), if_neg (not_le.mpr hpos),
    div_self (ne_of_gt hpos)]
  norm_num

/-- C7 witness: the amended statement instantiated at `E = id`,
`L = L0`, `ka = 2`, `ke = 1`, `t = 5`. -/
theorem claim_C7_witness :
    bateman_normalized id L0 (bateman_tmax L0 2 1) 2 1 = 1
    ∧ 0 ≤ bateman_normalized id L0 5 2 1 :=
  claim_C7_amended id L0 2 1 5 strictMono_id L0_pos (by norm_num) (by norm_num)

/-- C9: implicit zero-dose fallback.  An intake whose `dose_mg` field is
present but equal to 0 resolves to the substance's default dose (the
falsy-value fallback), so it contributes to both aggregators exactly as
an intake with no recorded dose. -/
theorem claim_C9_zero_dose_fallback (ts : ℚ) (s s2 : String) (rest : List Intake)
    (target : ℚ) (fn : ℚ → ℚ → ℚ) (dflt : ℚ) :
    resolveDose (some 0) dflt = dflt
    ∧ compute_substance_load_ngml (Intake.mk ts s (some 0) :: rest) target s2 fn dflt
        = compute_substance_load_ngml (Intake.mk ts s none :: rest) target s2 fn dflt
    ∧ compute_substance_level (Intake.mk ts s (some 0) :: rest) target s2 fn dflt
        = compute_substance_level (Intake.mk ts s none :: rest) target s2 fn dflt := by
  refine ⟨by simp [resolveDose], ?_, ?_⟩
  · simp [compute_substance_load_ngml, resolveDose]
  · simp [compute_substance_level, resolveDose]

theorem hydration_ladder_amount_bounds (current_intake_ml goal_ml : ℤ) (hour : ℚ)
    (minutes_since_last_drink : Option ℚ) (wake_hour : ℚ)
    (recent_intake_30min_ml deficit pacing : ℤ) (pct : ℚ) :
    0 ≤ (hydration_ladder current_intake_ml goal_ml hour minutes_since_last_drink
          wake_hour recent_intake_30min_ml deficit pacing pct).recommended_amount
    ∧ (hydration_ladder current_intake_ml goal_ml hour minutes_since_last_drink
          wake_hour recent_intake_30min_ml deficit pacing pct).recommended_amount ≤ 500 := by
  rcases minutes_since_last_drink with _ | m <;>
    · unfold hydration_ladder
      dsimp only [build_result]
      split_ifs <;> dsimp only <;> constructor <;> omega

/-- C10: implicit bound on coaching output.  Every branch of the
`assess_hydration` priority ladder recommends between 0 and 500 ml. -/
theorem claim_C10_amount_bounds (current_intake_ml goal_ml : ℤ) (hour : ℚ)
    (minutes_since_last_drink : Option ℚ) (wake_hour sleep_hour : ℚ)
    (is_fasting : Bool) (recent_intake_30min_ml : ℤ) :
    0 ≤ (assess_hydration current_intake_ml goal_ml hour minutes_since_last_drink
          wake_hour sleep_hour is_fasting recent_intake_30min_ml).recommended_amount
    ∧ (assess_hydration current_intake_ml goal_ml hour minutes_since_last_drink
          wake_hour sleep_hour is_fasting recent_intake_30min_ml).recommended_amount ≤ 500 :=
  hydration_ladder_amount_bounds _ _ _ _ _ _ _ _ _

/-- C5 counterexample: with a raw deficit of 0.5 ml (positive, as the
claim requires) and 600 ml logged in the last 30 minutes, the truncated
deficit `int(0.5) = 0` disables the suppression branch, and the
121-minutes-since-last-drink rung returns status "behind" with a 250 ml
recommendation — not the claimed forced "on_track" with amount 0. -/
theorem claim_C5_counterexample :
    500 < (600 : ℤ)
    ∧ 0 < expected_intake_at_hour (8 + 608/1000) 1000 7 23 true - (100 : ℚ)
    ∧ ¬ ((assess_hydration 100 1000 (8 + 608/1000) (some 121) 7 23 true 600).status
          = "on_track"
        ∧ (assess_hydration 100 1000 (8 + 608/1000) (some 121) 7 23 true 600).message = ""
        ∧ (assess_hydration 100 1000 (8 + 608/1000) (some 121) 7 23 true 600).recommended_amount
          = 0) := by
  refine ⟨by norm_num, by norm_num [expected_intake_at_hour], ?_⟩
  intro h
  have := h.2.2
  norm_num [assess_hydration, hydration_ladder, expected_intake_at_hour, build_result,
    pyInt] at this

/-- C5 (amended): whenever more than 500 ml were logged in the trailing
30 minutes and the TRUNCATED deficit `int(expected - actual)` is at
least 1 (the source compares the integer deficit, so a fractional raw
deficit below 1 ml does not trigger the rule), the assessment is forced
to status "on_track" with an empty message and recommended amount 0,
however large the deficit. -/
theorem claim_C5_amended (current_intake_ml goal_ml : ℤ) (hour : ℚ)
    (minutes_since_last_drink : Option ℚ) (wake_hour sleep_hour : ℚ)
    (is_fasting : Bool) (recent_intake_30min_ml : ℤ)
    (h1 : 500 < recent_intake_30min_ml)
    (h2 : 0 < pyInt (expected_intake_at_hour hour goal_ml wake_hour sleep_hour is_fasting
            - (current_intake_ml : ℚ))) :
    (assess_hydration current_intake_ml goal_ml hour minutes_since_last_drink
        wake_hour sleep_hour is_fasting recent_intake_30min_ml).status = "on_track"
    ∧ (assess_hydration current_intake_ml goal_ml hour minutes_since_last_drink
        wake_hour sleep_hour is_fasting recent_intake_30min_ml).message = ""
    ∧ (assess_hydration current_intake_ml goal_ml hour minutes_since_last_drink
        wake_hour sleep_hour is_fasting recent_intake_30min_ml).recommended_amount = 0 := by
  have key : ∀ (c g : ℤ) (h : ℚ) (ms : Option ℚ) (w : ℚ) (r d p : ℤ) (pc : ℚ),
      500 < r → 0 < d →
      (hydration_ladder c g h ms w r d p pc).status = "on_track"
      ∧ (hydration_ladder c g h ms w r d p pc).message = ""
      ∧ (hydration_ladder c g h ms w r d p pc).recommended_amount = 0 := by
    intro c g h ms w r d p pc hr hd
    unfold hydration_ladder
    rw [if_pos ⟨hr, hd⟩]
    exact ⟨rfl, rfl, rfl⟩
  exact key _ _ _ _ _ _ _ _ _ h1 h2

/-- C5 witness: goal 3200 ml, 1000 ml drunk at 15:00 (expected 1600 ml,
deficit 600 ml — normally the high-priority "behind" rung) with 600 ml
logged in the last 30 minutes: suppressed to "on_track". -/
theorem claim_C5_witness :
    (assess_hydration 1000 3200 15 none 7 23 true 600).status = "on_track"
    ∧ (assess_hydration 1000 3200 15 none 7 23 true 600).message = ""
    ∧ (assess_hydration 1000 3200 15 none 7 23 true 600).recommended_amount = 0 :=
  claim_C5_amended 1000 3200 15 none 7 23 true 600 (by norm_num)
    (by norm_num [pyInt, expected_intake_at_hour])

/-- C4 counterexample: at weight 96 kg, fasting, stimulant taken and
4005 steps, the code truncates the activity modifier
`int(60·5/1000) = 0` and the total, returning 3806 ml, while the
claim's real-valued formula gives 3807.1 ml — the claimed exact
equality `goal = base + drug + fasting + activity` fails. -/
theorem claim_C4_counterexample :
    ¬ (((compute_daily_goal 96 true true 4005 0).goal_ml : ℚ)
        = 96 * WATER_BASE_ML_PER_KG + (WATER_DRUG_MODIFIER_ML : ℚ)
          + (WATER_FASTING_MODIFIER_ML : ℚ)
          + WATER_ACTIVITY_ML_PER_1K_STEPS
            * (((max 0 (4005 - WATER_ACTIVITY_BASELINE_STEPS) : ℤ) : ℚ) / 1000)) := by
  norm_num [compute_daily_goal, pyInt, WATER_BASE_ML_PER_KG, WATER_DRUG_MODIFIER_ML,
    WATER_FASTING_MODIFIER_ML, WATER_ACTIVITY_ML_PER_1K_STEPS, WATER_ACTIVITY_BASELINE_STEPS]

/-- C4 (amended): for nonnegative weight, the returned goal is the sum
of the returned breakdown fields: the truncated base `int(weight·33.3)`,
plus 110 when the stimulant was taken, plus 500 when fasting, plus the
TRUNCATED activity modifier `int(60·max(0, steps-4000)/1000)` (the
source truncates the activity modifier and the total with `int()`); at
the flagship instance (96 kg, fasting, stimulant, 8000 steps) the goal
is 3196 + 110 + 500 + 240 = 4046 ml, i.e. approximately 4047 ml. -/
theorem claim_C4_amended (weight_kg : ℚ) (is_fasting elvanse_active : Bool)
    (steps caffeine_doses : ℤ) (hw : 0 ≤ weight_kg) :
    (compute_daily_goal weight_kg is_fasting elvanse_active steps caffeine_doses).goal_ml
      = pyInt (weight_kg * WATER_BASE_ML_PER_KG)
        + (if elvanse_active then WATER_DRUG_MODIFIER_ML else 0)
        + (if is_fasting then WATER_FASTING_MODIFIER_ML else 0)
        + pyInt (WATER_ACTIVITY_ML_PER_1K_STEPS
            * (((max 0 (steps - WATER_ACTIVITY_BASELINE_STEPS) : ℤ) : ℚ) / 1000)) := by
  have hbase : (0 : ℚ) ≤ weight_kg * WATER_BASE_ML_PER_KG := by
    have : (0 : ℚ) ≤ WATER_BASE_ML_PER_KG := by norm_num [WATER_BASE_ML_PER_KG]
    positivity
  have hact : (0 : ℚ) ≤ WATER_ACTIVITY_ML_PER_1K_STEPS
      * (((max 0 (steps - WATER_ACTIVITY_BASELINE_STEPS) : ℤ) : ℚ) / 1000) := by
    have h1 : (0 : ℤ) ≤ max 0 (steps - WATER_ACTIVITY_BASELINE_STEPS) := le_max_left _ _
    have h2 : (0 : ℚ) ≤ ((max 0 (steps - WATER_ACTIVITY_BASELINE_STEPS) : ℤ) : ℚ) := by
      exact_mod_cast h1
    norm_num [WATER_ACTIVITY_ML_PER_1K_STEPS]
    positivity
  have hk : (0 : ℤ) ≤ (if elvanse_active then WATER_DRUG_MODIFIER_ML else 0)
      + (if is_fasting then WATER_FASTING_MODIFIER_ML else 0)
      + pyInt (WATER_ACTIVITY_ML_PER_1K_STEPS
          * (((max 0 (steps - WATER_ACTIVITY_BASELINE_STEPS) : ℤ) : ℚ) / 1000)) := by
    have := pyInt_nonneg hact
    unfold WATER_DRUG_MODIFIER_ML WATER_FASTING_MODIFIER_ML
    split_ifs <;> omega
  calc (compute_daily_goal weight_kg is_fasting elvanse_active steps caffeine_doses).goal_ml
      = pyInt (weight_kg * WATER_BASE_ML_PER_KG
          + (((if elvanse_active then WATER_DRUG_MODIFIER_ML else 0) : ℤ) : ℚ)
          + (((if is_fasting then WATER_FASTING_MODIFIER_ML else 0) : ℤ) : ℚ)
          + ((pyInt (WATER_ACTIVITY_ML_PER_1K_STEPS
              * (((max 0 (steps - WATER_ACTIVITY_BASELINE_STEPS) : ℤ) : ℚ) / 1000)) : ℤ) : ℚ)) := rfl
    _ = pyInt (weight_kg * WATER_BASE_ML_PER_KG
          + (((if elvanse_active then WATER_DRUG_MODIFIER_ML else 0)
              + (if is_fasting then WATER_FASTING_MODIFIER_ML else 0)
              + pyInt (WATER_ACTIVITY_ML_PER_1K_STEPS
                  * (((max 0 (steps - WATER_ACTIVITY_BASELINE_STEPS) : ℤ) : ℚ) / 1000)) : ℤ) : ℚ)) :=
        congrArg pyInt (by push_cast; ring)
    _ = pyInt (weight_kg * WATER_BASE_ML_PER_KG)
          + ((if elvanse_active then WATER_DRUG_MODIFIER_ML else 0)
              + (if is_fasting then WATER_FASTING_MODIFIER_ML else 0)
              + pyInt (WATER_ACTIVITY_ML_PER_1K_STEPS
                  * (((max 0 (steps - WATER_ACTIVITY_BASELINE_STEPS) : ℤ) : ℚ) / 1000))) :=
        pyInt_add_int hbase hk
    _ = _ := by ring

/-- C4 witness: the amended decomposition at the flagship instance,
yielding goal 4046 ml (≈ 4047 ml as the spec estimates). -/
theorem claim_C4_witness :
    (compute_daily_goal 96 true true 8000 0).goal_ml = 4046 := by
  rw [claim_C4_amended 96 true true 8000 0 (by norm_num)]
  norm_num [pyInt, WATER_BASE_ML_PER_KG, WATER_DRUG_MODIFIER_ML,
    WATER_FASTING_MODIFIER_ML, WATER_ACTIVITY_ML_PER_1K_STEPS, WATER_ACTIVITY_BASELINE_STEPS]

theorem load_cutoff_error (intakes : List Intake) (target : ℚ) (s : String)
    (fn : ℚ → ℚ → ℚ) (dflt : ℚ) (hnn : ∀ h d, 0 ≤ fn h d) :
    compute_substance_load_ngml intakes target s fn dflt
      ≤ substance_load_exact intakes target s fn dflt
    ∧ substance_load_exact intakes target s fn dflt
        - compute_substance_load_ngml intakes target s fn dflt
      ≤ (intakes.length : ℚ) * 0.01 := by
  induction intakes with
  | nil => simp [compute_substance_load_ngml, substance_load_exact]
  | cons i rest ih =>
    simp only [compute_substance_load_ngml, substance_load_exact, List.length_cons]
    push_cast
    split_ifs with h1 h2 h3
    · constructor <;> linarith [ih.1, ih.2]
    · constructor <;> linarith [ih.1, ih.2]
    · constructor <;> linarith [ih.1, ih.2]
    · have hc0 : 0 ≤ fn (target - i.timestamp) (resolveDose i.dose_mg dflt) := hnn _ _
      have hc1 : fn (target - i.timestamp) (resolveDose i.dose_mg dflt) ≤ 0.01 :=
        not_lt.mp h3
      constructor <;> linarith [ih.1, ih.2]

theorem level_cutoff_error (intakes : List Intake) (target : ℚ) (s : String)
    (fn : ℚ → ℚ → ℚ) (dflt : ℚ) (hnn : ∀ h d, 0 ≤ fn h d) :
    compute_substance_level intakes target s fn dflt
      ≤ substance_level_exact intakes target s fn dflt
    ∧ substance_level_exact intakes target s fn dflt
        - compute_substance_level intakes target s fn dflt
      ≤ (intakes.length : ℚ) * 0.005 := by
  induction intakes with
  | nil => simp [compute_substance_level, substance_level_exact]
  | cons i rest ih =>
    simp only [compute_substance_level, substance_level_exact, List.length_cons]
    push_cast
    split_ifs with h1 h2 h3
    · constructor <;> linarith [ih.1, ih.2]
    · constructor <;> linarith [ih.1, ih.2]
    · constructor <;> linarith [ih.1, ih.2]
    · have hc0 : 0 ≤ fn (target - i.timestamp) (resolveDose i.dose_mg dflt) := hnn _ _
      have hc1 : fn (target - i.timestamp) (resolveDose i.dose_mg dflt) ≤ 0.005 :=
        not_lt.mp h3
      constructor <;> linarith [ih.1, ih.2]

/-- C6 counterexample: two intakes whose contributions each equal the
cutoff 0.01 exactly are both skipped, so the cutoff aggregate is 0 while
the exact sum is 0.02 — the aggregate differs from the exact sum by MORE
than the cutoff's own magnitude, refuting the claimed per-call bound. -/
theorem claim_C6_counterexample :
    ¬ (|substance_load_exact cutoffIntakes 0 "s" (fun _ _ => 0.01) 5
        - compute_substance_load_ngml cutoffIntakes 0 "s" (fun _ _ => 0.01) 5| ≤ 0.01) := by
  norm_num [substance_load_exact, compute_substance_load_ngml, cutoffIntakes, resolveDose,
    abs_of_nonneg]

/-- C6 (amended): for nonnegative contributions, the cutoff aggregator
differs from the exact no-cutoff superposition sum by at most the
cutoff's magnitude TIMES THE NUMBER OF INTAKE EVENTS (each skipped
event contributes at most one cutoff of error, and the errors
accumulate), for both the absolute (0.01 ng/ml) and the relative
(0.005) aggregators. -/
theorem claim_C6_amended (intakes : List Intake) (target : ℚ) (s : String)
    (fn : ℚ → ℚ → ℚ) (dflt : ℚ) (hnn : ∀ h d, 0 ≤ fn h d) :
    |substance_load_exact intakes target s fn dflt
        - compute_substance_load_ngml intakes target s fn dflt|
      ≤ (intakes.length : ℚ) * 0.01
    ∧ |substance_level_exact intakes target s fn dflt
        - compute_substance_level intakes target s fn dflt|
      ≤ (intakes.length : ℚ) * 0.005 := by
  have h1 := load_cutoff_error intakes target s fn dflt hnn
  have h2 := level_cutoff_error intakes target s fn dflt hnn
  constructor
  · rw [abs_of_nonneg (by linarith [h1.1])]
    exact h1.2
  · rw [abs_of_nonneg (by linarith [h2.1])]
    exact h2.2

/-- C6 witness: a single unit-magnitude contribution (not skipped), with
zero error against the exact sum. -/
theorem claim_C6_witness :
    |substance_load_exact [Intake.mk 0 "s" none] 1 "s" (fun _ _ => 1) 5
        - compute_substance_load_ngml [Intake.mk 0 "s" none] 1 "s" (fun _ _ => 1) 5|
      ≤ (([Intake.mk 0 "s" none] : List Intake).length : ℚ) * 0.01
    ∧ |substance_level_exact [Intake.mk 0 "s" none] 1 "s" (fun _ _ => 1) 5
        - compute_substance_level [Intake.mk 0 "s" none] 1 "s" (fun _ _ => 1) 5|
      ≤ (([Intake.mk 0 "s" none] : List Intake).length : ℚ) * 0.005 :=
  claim_C6_amended [Intake.mk 0 "s" none] 1 "s" (fun _ _ => 1) 5 (fun _ _ => zero_le_one)

/-- C3 counterexample: a 4 mg retard intake one hour before the target
(concentration 1295/1056 ≈ 1.23 ng/ml) exceeds 20% of the IR scaled
Cmax (0.875 ng/ml) but NOT 20% of the retard's own scaled Cmax
(1.75 ng/ml); with codeine present (> 1 ng/ml) the source emits the
CYP2D6 warning although the spec's own-Cmax condition is false. -/
theorem claim_C3_counterexample :
    cyp2d6Warning ∈ check_ddi_warnings E0 L0 ddiIntakes 1
    ∧ ¬ ddi_rule1_spec_condition E0 L0 ddiIntakes 1 := by
  have hret : compute_substance_load_ngml ddiIntakes 1 "medikinet_retard"
      (fun h d => medikinet_retard_concentration E0 L0 h d USER_WEIGHT_KG)
      MEDIKINET_RETARD_DEFAULT_DOSE_MG = 1295/1056 := by
    simp only [compute_substance_load_ngml, ddiIntakes, String.reduceEq, ne_eq,
      not_false_eq_true, not_true_eq_false, ite_true, ite_false, resolveDose]
    norm_num [medikinet_retard_concentration, bateman_normalized, bateman_raw,
      bateman_tmax, allometric_cmax, E0, L0, USER_WEIGHT_KG, REFERENCE_WEIGHT_KG,
      CMAX_REF_medikinet_retard, MEDIKINET_RETARD_DEFAULT_DOSE_MG,
      MEDIKINET_RETARD_KA, MEDIKINET_RETARD_KE]
  have hcod : compute_substance_load_ngml ddiIntakes 1 "co_dafalgan"
      (fun h d => codein_concentration E0 L0 h d USER_WEIGHT_KG)
      CO_DAFALGAN_DEFAULT_DOSE_MG = 844375/9963 := by
    simp only [compute_substance_load_ngml, ddiIntakes, String.reduceEq, ne_eq,
      not_false_eq_true, not_true_eq_false, ite_true, ite_false, resolveDose]
    norm_num [codein_concentration, bateman_normalized, bateman_raw, bateman_tmax,
      allometric_cmax, E0, L0, USER_WEIGHT_KG, REFERENCE_WEIGHT_KG,
      CMAX_REF_codein, CO_DAFALGAN_DEFAULT_DOSE_MG, CODEIN_FRACTION,
      CO_DAFALGAN_CODEIN_KA, CO_DAFALGAN_CODEIN_KE]
  have helv : compute_substance_load_ngml ddiIntakes 1 "elvanse"
      (fun h d => elvanse_concentration E0 h d USER_WEIGHT_KG)
      ELVANSE_DEFAULT_DOSE_MG = 0 := by
    simp only [compute_substance_load_ngml, ddiIntakes, String.reduceEq, ne_eq,
      not_false_eq_true, not_true_eq_false, ite_true, ite_false]
  have hir : compute_substance_load_ngml ddiIntakes 1 "medikinet"
      (fun h d => medikinet_ir_concentration E0 L0 h d USER_WEIGHT_KG)
      MEDIKINET_DEFAULT_DOSE_MG = 0 := by
    simp only [compute_substance_load_ngml, ddiIntakes, String.reduceEq, ne_eq,
      not_false_eq_true, not_true_eq_false, ite_true, ite_false]
  have hcaff : compute_substance_load_ngml ddiIntakes 1 "mate"
      (fun h d => caffeine_concentration E0 L0 h d USER_WEIGHT_KG)
      MATE_CAFFEINE_MG = 0 := by
    simp only [compute_substance_load_ngml, ddiIntakes, String.reduceEq, ne_eq,
      not_false_eq_true, not_true_eq_false, ite_true, ite_false]
  have hpara : paraTotal24h ddiIntakes 1 = 500 := by
    simp only [paraTotal24h, ddiIntakes, List.foldl, String.reduceEq, ne_eq,
      not_false_eq_true, not_true_eq_false, ite_true, ite_false, resolveDose]
    norm_num
  constructor
  · simp only [check_ddi_warnings, hret, hcod, helv, hir, hcaff, hpara, USER_IS_FASTING]
    norm_num [allometric_cmax, USER_WEIGHT_KG, REFERENCE_WEIGHT_KG, CMAX_REF_elvanse,
      CMAX_REF_medikinet_ir, PARACETAMOL_MAX_DAILY_FASTING_MG, max_def,
      List.mem_append, List.mem_singleton]
  · intro h
    rw [ddi_rule1_spec_condition, hret, hcod, helv, hir] at h
    revert h
    norm_num [allometric_cmax, USER_WEIGHT_KG, REFERENCE_WEIGHT_KG, CMAX_REF_elvanse,
      CMAX_REF_medikinet_ir, CMAX_REF_medikinet_retard]

/-- C3 (amended): the CYP2D6 metabolic-blockade critical warning is
emitted iff the codeine concentration exceeds 1.0 ng/ml and at least
one stimulant concentration exceeds the 20%-Cmax threshold USED BY THE
SOURCE — 20% of the elvanse scaled Cmax for elvanse, and 20% of the
IMMEDIATE-RELEASE scaled Cmax for BOTH methylphenidate forms (the
retard form is compared against the IR threshold, not its own). -/
theorem claim_C3_amended (E L : ℚ → ℚ) (intakes : List Intake) (target_time : ℚ) :
    cyp2d6Warning ∈ check_ddi_warnings E L intakes target_time ↔
      (compute_substance_load_ngml intakes target_time "co_dafalgan"
          (fun h d => codein_concentration E L h d USER_WEIGHT_KG)
          CO_DAFALGAN_DEFAULT_DOSE_MG > 1
        ∧ (compute_substance_load_ngml intakes target_time "elvanse"
              (fun h d => elvanse_concentration E h d USER_WEIGHT_KG)
              ELVANSE_DEFAULT_DOSE_MG
              > allometric_cmax CMAX_REF_elvanse USER_WEIGHT_KG * 0.2
          ∨ compute_substance_load_ngml intakes target_time "medikinet"
              (fun h d => medikinet_ir_concentration E L h d USER_WEIGHT_KG)
              MEDIKINET_DEFAULT_DOSE_MG
              > allometric_cmax CMAX_REF_medikinet_ir USER_WEIGHT_KG * 0.2
          ∨ compute_substance_load_ngml intakes target_time "medikinet_retard"
              (fun h d => medikinet_retard_concentration E L h d USER_WEIGHT_KG)
              MEDIKINET_RETARD_DEFAULT_DOSE_MG
              > allometric_cmax CMAX_REF_medikinet_ir USER_WEIGHT_KG * 0.2)) := by
  have hne2 : cyp2d6Warning ≠ serotoninWarning := by
    intro h
    have := congrArg Warning.type h
    simp [cyp2d6Warning, serotoninWarning] at this
  have hne3a : ∀ m : String, cyp2d6Warning
      ≠ Warning.mk "critical" "paracetamol_toxicity"
          "Paracetamol-Hepatotoxizitaet (Fasten!)" m := by
    intro m h
    have := congrArg Warning.type h
    simp [cyp2d6Warning] at this
  have hne3b : ∀ m : String, cyp2d6Warning
      ≠ Warning.mk "warning" "paracetamol_caution" "Paracetamol-Vorsicht (Fasten)" m := by
    intro m h
    have := congrArg Warning.type h
    simp [cyp2d6Warning] at this
  have hne4 : ∀ m : String, cyp2d6Warning
      ≠ Warning.mk "warning" "cns_overload" "Extreme ZNS-Last" m := by
    intro m h
    have := congrArg Warning.type h
    simp [cyp2d6Warning] at this
  simp only [check_ddi_warnings, USER_IS_FASTING]
  split_ifs <;> simp_all [List.mem_append]

end LifeManager
